import Mathlib

/-!
Verification of the distributed request-throttling and cache-coordination
layer of the GCP landing-zone portal backend.

The definitions below are a shallow embedding of

  * `backend/middleware/distributed_rate_limit.py`
    (`DistributedRateLimiter.LUA_SCRIPT`, `DistributedRateLimiter.is_allowed`,
    `DistributedRateLimiter.get_dynamic_limit`, `RateLimitConfig`), and
  * `backend/services/cache_distributed.py`
    (`CacheLock.__aenter__`, `CacheLock.__aexit__`, `CacheService.get`,
    `CacheService.invalidate`).

Machine floats of the source are modelled as exact rationals (`ℚ`); the
timestamps handled here are wall-clock seconds and the claims under study
are not about float rounding.  Fallible paths (Python exceptions escaping
to the caller) are modelled with explicit result constructors.
-/

namespace RateLimit

/-- The JSON-serialised bucket state the Lua script stores under
`rate_limit:{client_id}`: `{tokens = ..., last_refill = ...}`. -/
structure BucketState where
  tokens : ℚ
  last_refill : ℚ
deriving DecidableEq, Repr

/-- Everything the Lua script does on one invocation: the state it writes
back (`redis.call('SET', key, cjson.encode(state), 'EX', 86400)`), the
expiry it attaches, and the `{allowed, remaining}` pair it returns. -/
structure LuaResult where
  state : BucketState
  expiry : ℕ
  allowed : Bool
  remaining : ℤ
deriving DecidableEq, Repr

/-- The read-and-refill phase of `DistributedRateLimiter.LUA_SCRIPT`:
missing state is initialised to `{tokens = max_tokens, last_refill = now}`;
otherwise `tokens = min(max_tokens, tokens + (now - last_refill) * refill_rate)`
and `last_refill = now`. -/
def refill (max_tokens refill_rate now : ℚ) : Option BucketState → BucketState
  | none => ⟨max_tokens, now⟩
  | some s => ⟨min max_tokens (s.tokens + (now - s.last_refill) * refill_rate), now⟩

/-- One full invocation of `DistributedRateLimiter.LUA_SCRIPT`: refill, then
try to consume one token.  On `tokens >= 1` the script consumes a token and
returns `{1, math.floor(state.tokens)}`; otherwise it returns `{0, 0}`.
Both branches persist the state with `'EX', 86400`. -/
def luaTokenBucket (max_tokens refill_rate now : ℚ) (current : Option BucketState) :
    LuaResult :=
  let s := refill max_tokens refill_rate now current
  if 1 ≤ s.tokens then
    ⟨⟨s.tokens - 1, s.last_refill⟩, 86400, true, ⌊s.tokens - 1⌋⟩
  else
    ⟨s, 86400, false, 0⟩

/-- Run a sequence of limiter operations on one bucket, each supplying its
own `now` (ARGV[3] of the script); the state threaded through is exactly
what each invocation of the script leaves in the store. -/
def runOps (max_tokens refill_rate : ℚ) : Option BucketState → List ℚ → Option BucketState
  | s, [] => s
  | s, n :: rest =>
      runOps max_tokens refill_rate (some (luaTokenBucket max_tokens refill_rate n s).state) rest

/-- The shapes `DistributedRateLimiter.is_allowed` can receive back from the
store call, including the failure mode in which the call raises `RedisError`
(store unreachable, timeout, or script error). -/
inductive ScriptOutcome where
  /-- The script returned a list `[allowed, remaining]` of integers. -/
  | listResult (first second : ℤ)
  /-- The script returned a bare integer. -/
  | intResult (v : ℤ)
  /-- The call returned an unexpected shape (e.g. `None`). -/
  | nilResult
  /-- The call raised `RedisError`: store unreachable or operation errored. -/
  | redisFailure
deriving DecidableEq, Repr

/-- What `is_allowed` hands back to a numeric-limit caller: the decision and
the metadata dict `{remaining, limit, reset_in}`. -/
structure AllowReply where
  allowed : Bool
  remaining : ℤ
  limit : ℤ
  resetIn : ℤ
deriving DecidableEq, Repr

/-- The result-normalisation and failure handling of
`DistributedRateLimiter.is_allowed` for a caller passing numeric limits:
a `[a, r]` list becomes `(bool(a), r)`; a bare int `v` becomes
`(bool(v), max-1 or 0)`; an unexpected shape and a `RedisError` both fall
back to `(True, remaining = max_requests)`.  The function is total: no
branch re-raises to the caller. -/
def isAllowedNumeric (maxRequests windowSeconds : ℤ) (outcome : ScriptOutcome) :
    AllowReply :=
  match outcome with
  | .listResult a r => ⟨a ≠ 0, r, maxRequests, windowSeconds⟩
  | .intResult v =>
      ⟨v ≠ 0, if v ≠ 0 then maxRequests - 1 else 0, maxRequests, windowSeconds⟩
  | .nilResult => ⟨true, maxRequests, maxRequests, windowSeconds⟩
  | .redisFailure => ⟨true, maxRequests, maxRequests, windowSeconds⟩

/-- Python `int()` applied to a (here: exact-rational) number: truncation
toward zero. -/
def pyInt (q : ℚ) : ℤ := if 0 ≤ q then ⌊q⌋ else ⌈q⌉

/-- The backend-health classification used by the limiter. -/
inductive HealthStatus where
  | healthy
  | degraded
  | critical
deriving DecidableEq, Repr

/-- Client tiers of `ClientTier` in the source. -/
inductive ClientTier where
  | publicTier
  | authenticated
  | admin
  | serviceAccount
deriving DecidableEq, Repr

/-- A `{requests, window}` limit dict. -/
structure Limit where
  requests : ℤ
  window : ℤ
deriving DecidableEq, Repr

/-- Table `TIER_LIMITS` of `RateLimitConfig`. -/
def TIER_LIMITS : ClientTier → Limit
  | .publicTier => ⟨100, 60⟩
  | .authenticated => ⟨1000, 60⟩
  | .admin => ⟨5000, 60⟩
  | .serviceAccount => ⟨10000, 60⟩

/-- Table `ENDPOINT_LIMITS` of `RateLimitConfig`, keyed by (method, path). -/
def ENDPOINT_LIMITS (method path : String) : Option Limit :=
  if method = "POST" ∧ path = "/api/v2/projects" then some ⟨10, 60⟩
  else if method = "GET" ∧ path = "/api/v2/costs" then some ⟨100, 60⟩
  else if method = "GET" ∧ path = "/api/v2/compliance/reports" then some ⟨50, 60⟩
  else if method = "GET" ∧ path = "/auth/login" then some ⟨10, 60⟩
  else none

/-- Default limit `DEFAULT_ENDPOINT_LIMIT` of `RateLimitConfig`. -/
def DEFAULT_ENDPOINT_LIMIT : Limit := ⟨1000, 60⟩

/-- The health-adjustment block of `get_dynamic_limit`:
`critical → int(requests * 0.2)`, `degraded → int(requests * 0.5)`,
otherwise `int(requests)`; the window is taken from the base limit
unchanged. -/
def adjustForHealth (base : Limit) (status : HealthStatus) : Limit :=
  match status with
  | .critical => ⟨pyInt ((base.requests : ℚ) * (2 / 10)), base.window⟩
  | .degraded => ⟨pyInt ((base.requests : ℚ) * (5 / 10)), base.window⟩
  | .healthy => ⟨base.requests, base.window⟩

/-- Function `DistributedRateLimiter.get_dynamic_limit`: endpoint-specific limit if
the (method, path) key is present, else the tier limit (every tier is in
`TIER_LIMITS`, so the `.get` default is never taken), then health
adjustment. -/
def getDynamicLimit (tier : ClientTier) (method path : String)
    (health : HealthStatus) : Limit :=
  adjustForHealth ((ENDPOINT_LIMITS method path).getD (TIER_LIMITS tier)) health

end RateLimit

namespace DCache

/-- Association-list view of a string-keyed store tier (the request-local
`dict` or the shared-store keyspace); first binding for a key wins. -/
def lookupKV (l : List (String × String)) (k : String) : Option String :=
  (l.find? (fun kv => kv.1 == k)).map (fun kv => kv.2)

/-- Remove a key from a tier (the shared store's `DEL`). -/
def eraseKV (l : List (String × String)) (k : String) : List (String × String) :=
  l.filter (fun kv => kv.1 != k)

/-- The Python runtime values that `CacheLock.__aexit__` compares: the
client is created with `decode_responses=True`, so `GET` yields `str`;
`self.lock_value.encode()` yields `bytes`. -/
inductive PyVal where
  | pyStr (s : String)
  | pyBytes (s : String)
  | pyNone
deriving DecidableEq, Repr

/-- Python `==` on these values: `str == str` and `bytes == bytes` compare
contents; comparisons across types (`str == bytes`, anything vs `None`)
are `False`. -/
def pyEq : PyVal → PyVal → Bool
  | .pyStr a, .pyStr b => a == b
  | .pyBytes a, .pyBytes b => a == b
  | _, _ => false

/-- Release, `CacheLock.__aexit__`: read the currently stored owner value for the
lock key (a `str`, because the connection decodes responses) and delete the
key only if it equals `self.lock_value.encode()` (a `bytes`). -/
def lockRelease (store : List (String × String)) (lockKey lockValue : String) :
    List (String × String) :=
  let current : PyVal :=
    match lookupKV store lockKey with
    | some v => PyVal.pyStr v
    | none => PyVal.pyNone
  if pyEq current (PyVal.pyBytes lockValue) then eraseKV store lockKey else store

/-- Worker for `globMatch`.  Each recursive call shrinks the combined
length of pattern and text, so the fuel — set to more than that combined
length — is never exhausted; it only makes the recursion structural. -/
def globMatchAux : Nat → List Char → List Char → Bool
  | 0, _, _ => false
  | fuel + 1, ps, cs =>
    match ps, cs with
    | [], [] => true
    | '*' :: ps', [] => globMatchAux fuel ps' []
    | '*' :: ps', c :: cs' =>
        globMatchAux fuel ps' (c :: cs') || globMatchAux fuel ('*' :: ps') cs'
    | _ :: _, [] => false
    | [], _ :: _ => false
    | p :: ps', c :: cs' => p == c && globMatchAux fuel ps' cs'

/-- Redis `KEYS`-style glob matching, for the pattern fragment the service
uses (`*` wildcards and literal characters). -/
def globMatch (ps cs : List Char) : Bool :=
  globMatchAux (ps.length + cs.length + 1) ps cs

/-- Whether the first character list is an initial segment of the second. -/
def startsWithChars : List Char → List Char → Bool
  | [], _ => true
  | _ :: _, [] => false
  | p :: ps, c :: cs => p == c && startsWithChars ps cs

/-- Python's `pattern in k` substring test, used by `CacheService.invalidate`
on the request-local tier. -/
def substrMatch (pat k : String) : Bool :=
  go pat.toList k.toList
where
  go (ps : List Char) : List Char → Bool
    | [] => startsWithChars ps []
    | c :: cs => startsWithChars ps (c :: cs) || go ps cs

/-- The two mutable tiers of `CacheService` plus whether the shared-store
client is connected (`self.redis` non-`None`). -/
structure CacheState where
  redisConnected : Bool
  requestCache : List (String × String)
  redisStore : List (String × String)
deriving DecidableEq, Repr

/-- Function `CacheService.invalidate`: if the client is not connected, log and
return.  Otherwise drop from the request-local map every key containing the
pattern as a substring; then, on the shared tier, delete the keys matching
the glob pattern when it contains `*`, else delete the exact key. -/
def invalidate (st : CacheState) (pattern : String) : CacheState :=
  if st.redisConnected then
    { st with
      requestCache := st.requestCache.filter (fun kv => !(substrMatch pattern kv.1))
      redisStore :=
        if pattern.toList.contains '*' then
          st.redisStore.filter (fun kv => !(globMatch pattern.toList kv.1.toList))
        else
          eraseKV st.redisStore pattern }
  else
    st

/-- Python truthiness of an optional string read from the store: `None` and
the empty string are both falsy (`if value:`). -/
def truthy : Option String → Option String
  | some s => if s.isEmpty then none else some s
  | none => none

/-- A fragment of `json.loads` sufficient for the string payloads the cache
round-trips: a value decodes exactly when it is a quoted JSON string
literal; anything else raises `JSONDecodeError`, modelled as `none`. -/
def jsonDecode (s : String) : Option String :=
  let cs := s.toList
  if 2 ≤ cs.length ∧ cs.head? = some '"' ∧ cs.getLast? = some '"' then
    some (String.mk (cs.drop 1).dropLast)
  else
    none

/-- First truthy value among a list of reads. -/
def firstSome : List (Option String) → Option String
  | [] => none
  | some v :: _ => some v
  | none :: rest => firstSome rest

/-- Acquisition, `CacheLock.__aenter__`: up to `max_retries = 10` conditional
`SET ... NX` attempts (with exponential backoff between them); acquisition
succeeds iff one of the first ten attempts does, otherwise `TimeoutError`
is raised. -/
def lockAcquire (attempts : List Bool) : Bool :=
  (attempts.take 10).any (fun b => b)

/-- The `except TimeoutError` retry loop of `CacheService.get`:
`for _ in range(10)`, each iteration sleeping then reading the key and
returning on the first truthy value. -/
def retryRead (reads : List (Option String)) : Option String :=
  firstSome ((reads.take 10).map truthy)

/-- Oracle for the shared-store interactions one `CacheService.get` call
performs.  The store is mutated concurrently by other instances, so each
read result and each lock-acquisition attempt outcome is supplied
independently. -/
structure GetOracle where
  /-- Result of the level-2 `self.redis.get(key)`. -/
  read1 : Option String
  /-- Outcomes of the successive `SET ... NX` attempts in `__aenter__`. -/
  lockAttempts : List Bool
  /-- Result of the re-check `self.redis.get(key)` after the lock. -/
  read2 : Option String
  /-- Results of the reads in the lock-timeout retry loop. -/
  timeoutReads : List (Option String)
  /-- The value `fetch_fn()` produces. -/
  computeVal : String
deriving DecidableEq, Repr

/-- What one `CacheService.get` call delivers to its caller. -/
inductive GetResult where
  /-- A value was returned. -/
  | ok (v : String)
  /-- An exception (here: `json.JSONDecodeError`) escaped to the caller. -/
  | raised
deriving DecidableEq, Repr

/-- The level-3 part of `CacheService.get` (cache miss with the client
connected): acquire the lock (ten attempts); on success re-check the shared
tier — a truthy value is decoded by a bare `json.loads` with no handler —
else compute.  On `TimeoutError`, run the bounded retry-read loop — again a
bare `json.loads` on a truthy read — else compute unprotected. -/
def cacheGetMiss (o : GetOracle) : GetResult :=
  if lockAcquire o.lockAttempts then
    match truthy o.read2 with
    | some raw =>
      match jsonDecode raw with
      | some v => GetResult.ok v
      | none => GetResult.raised
    | none => GetResult.ok o.computeVal
  else
    match retryRead o.timeoutReads with
    | some raw =>
      match jsonDecode raw with
      | some v => GetResult.ok v
      | none => GetResult.raised
    | none => GetResult.ok o.computeVal

/-- Function `CacheService.get`: request-local hit; else (client connected) a shared
tier read whose decode failure is caught, logged and the key deleted,
falling through to the miss path; with no client, compute directly. -/
def cacheGet (requestCache : List (String × String)) (redisConnected : Bool)
    (key : String) (o : GetOracle) : GetResult :=
  match lookupKV requestCache key with
  | some v => GetResult.ok v
  | none =>
    if redisConnected then
      match truthy o.read1 with
      | some raw =>
        match jsonDecode raw with
        | some v => GetResult.ok v
        | none => cacheGetMiss o
      | none => cacheGetMiss o
    else
      GetResult.ok o.computeVal

/-- Concrete oracle used to exercise the lock-timeout degradation path of
`cacheGet`: the level-2 read misses, all ten `SET NX` attempts fail, all
ten fallback reads miss, and the compute function yields `db-value`. -/
def c8OracleW : GetOracle :=
  ⟨none, List.replicate 10 false, none, List.replicate 10 none, "db-value"⟩

end DCache

open RateLimit DCache

/-! ## Helper lemmas -/

/-- One invocation of the Lua script keeps the stored tokens within
`[0, capacity]` and stamps `last_refill = now`, provided the incoming state
(if any) satisfies the bounds and was written no later than `now`. -/
theorem luaTokenBucket_state_bounds (cap rate now : ℚ) (hcap : 0 ≤ cap)
    (hrate : 0 ≤ rate) (cur : Option BucketState)
    (hcur : ∀ b, cur = some b → 0 ≤ b.tokens ∧ b.tokens ≤ cap ∧ b.last_refill ≤ now) :
    0 ≤ (luaTokenBucket cap rate now cur).state.tokens ∧
    (luaTokenBucket cap rate now cur).state.tokens ≤ cap ∧
    (luaTokenBucket cap rate now cur).state.last_refill = now := by
  have hs : 0 ≤ (refill cap rate now cur).tokens ∧
      (refill cap rate now cur).tokens ≤ cap ∧
      (refill cap rate now cur).last_refill = now := by
    cases cur with
    | none => exact ⟨hcap, le_refl cap, rfl⟩
    | some b =>
      obtain ⟨h0, _, hlr⟩ := hcur b rfl
      refine ⟨?_, min_le_left _ _, rfl⟩
      refine le_min hcap ?_
      have hm : 0 ≤ (now - b.last_refill) * rate :=
        mul_nonneg (by linarith) hrate
      show (0 : ℚ) ≤ b.tokens + (now - b.last_refill) * rate
      linarith
  by_cases h1 : 1 ≤ (refill cap rate now cur).tokens
  · simp only [luaTokenBucket, if_pos h1]
    exact ⟨by linarith [hs.1], by linarith [hs.2.1], hs.2.2⟩
  · simp only [luaTokenBucket, if_neg h1]
    exact hs

/-- Invariant propagation for a whole operation sequence: starting from a
state within bounds whose write time precedes the next timestamp, running
any chronologically ordered list of operations stays within bounds. -/
theorem runOps_bounds (cap rate : ℚ) (hcap : 0 ≤ cap) (hrate : 0 ≤ rate)
    (nows : List ℚ) : ∀ (cur : Option BucketState),
    nows.Chain' (· ≤ ·) →
    (∀ b, cur = some b → 0 ≤ b.tokens ∧ b.tokens ≤ cap ∧
      ∀ n, nows.head? = some n → b.last_refill ≤ n) →
    ∀ b, runOps cap rate cur nows = some b → 0 ≤ b.tokens ∧ b.tokens ≤ cap := by
  induction nows with
  | nil =>
    intro cur _ hcur b hb
    simp only [runOps] at hb
    exact ⟨(hcur b hb).1, (hcur b hb).2.1⟩
  | cons n rest ih =>
    intro cur hchain hcur b hb
    simp only [runOps] at hb
    have hstep := luaTokenBucket_state_bounds cap rate n hcap hrate cur ?hc
    case hc =>
      intro b' hb'
      obtain ⟨h0, hle, hlr⟩ := hcur b' hb'
      exact ⟨h0, hle, hlr n rfl⟩
    obtain ⟨hco, hchain'⟩ := List.chain'_cons'.mp hchain
    refine ih (some (luaTokenBucket cap rate n cur).state) hchain' ?_ b hb
    intro b' hb'
    injection hb' with hb'
    subst hb'
    refine ⟨hstep.1, hstep.2.1, ?_⟩
    intro m hm
    rw [hstep.2.2]
    exact hco m (Option.mem_def.mpr hm)

/-- Python `int` of `b / n` for nonnegative `b` is integer floor division. -/
theorem pyInt_intCast_div (b : ℤ) (hb : 0 ≤ b) (n : ℕ) :
    pyInt ((b : ℚ) / (n : ℚ)) = b / (n : ℤ) := by
  have h0 : (0 : ℚ) ≤ (b : ℚ) / (n : ℚ) := by positivity
  simp only [pyInt, if_pos h0]
  exact_mod_cast Rat.floor_intCast_div_natCast b n

/-- Critical-health adjustment computes floor division by 5. -/
theorem adjustForHealth_critical (base : Limit) (hb : 0 ≤ base.requests) :
    (adjustForHealth base HealthStatus.critical).requests = base.requests / 5 := by
  have hq : ((base.requests : ℚ) * (2 / 10)) = (base.requests : ℚ) / ((5 : ℕ) : ℚ) := by
    push_cast
    ring
  simp only [adjustForHealth, hq, pyInt_intCast_div base.requests hb 5]
  norm_num

/-- Degraded-health adjustment computes floor division by 2. -/
theorem adjustForHealth_degraded (base : Limit) (hb : 0 ≤ base.requests) :
    (adjustForHealth base HealthStatus.degraded).requests = base.requests / 2 := by
  have hq : ((base.requests : ℚ) * (5 / 10)) = (base.requests : ℚ) / ((2 : ℕ) : ℚ) := by
    push_cast
    ring
  simp only [adjustForHealth, hq, pyInt_intCast_div base.requests hb 2]
  norm_num

/-- Every base limit with at least five requests scales to at least one. -/
theorem one_le_adjustForHealth (base : Limit) (h : HealthStatus)
    (hbase : 5 ≤ base.requests) :
    1 ≤ (adjustForHealth base h).requests := by
  have hb0 : (0 : ℤ) ≤ base.requests := by linarith
  cases h with
  | healthy =>
    simp only [adjustForHealth]
    linarith
  | degraded =>
    rw [adjustForHealth_degraded base hb0]
    rw [Int.le_ediv_iff_mul_le (by norm_num)]
    linarith
  | critical =>
    rw [adjustForHealth_critical base hb0]
    rw [Int.le_ediv_iff_mul_le (by norm_num)]
    linarith

/-- Every base limit the limiter's tables can produce has at least five
requests. -/
theorem five_le_base_limit (tier : ClientTier) (method path : String) :
    5 ≤ ((ENDPOINT_LIMITS method path).getD (TIER_LIMITS tier)).requests := by
  unfold ENDPOINT_LIMITS
  split_ifs <;> cases tier <;> norm_num [TIER_LIMITS, Option.getD]

/-! ## Claims -/

/-- C1, counterexample to the claim as stated: with capacity 10 and window
60, a call at `now = 0` on a stored state `{tokens = 0, last_refill = 100}`
(written by an instance whose clock ran ahead) leaves negative tokens and
is denied with returned remaining `0`, which is not `floor(tokens)` of the
persisted state (`floor(-50/3) = -17`). -/
theorem c1_counterexample :
    (luaTokenBucket 10 (10 / 60) 0 (some ⟨0, 100⟩)).remaining ≠
      ⌊(luaTokenBucket 10 (10 / 60) 0 (some ⟨0, 100⟩)).state.tokens⌋ := by
  norm_num [luaTokenBucket, refill]

/-- C1 (amended): for every call of the limiter's allow operation with
policy (capacity, window): missing state is initialised with
`tokens = capacity`, `last_refill = now`; otherwise tokens becomes
`min(capacity, tokens + (now - last_refill) * capacity/window)` and
`last_refill` becomes `now`; one token is consumed exactly when the
refilled tokens are at least 1 (decision allow), else deny; the updated
state is persisted with an expiry of 86400 s regardless of the decision;
and — provided the refilled token count is nonnegative, as it is whenever
the stored tokens are nonnegative and `last_refill ≤ now` — the returned
remaining equals `floor(tokens)` after the operation. -/
theorem c1_allow_step (cap window now : ℚ) (cur : Option BucketState)
    (hnn : 0 ≤ (refill cap (cap / window) now cur).tokens) :
    (cur = none → refill cap (cap / window) now cur = ⟨cap, now⟩) ∧
    (∀ b, cur = some b → refill cap (cap / window) now cur =
        ⟨min cap (b.tokens + (now - b.last_refill) * (cap / window)), now⟩) ∧
    (luaTokenBucket cap (cap / window) now cur).expiry = 86400 ∧
    (luaTokenBucket cap (cap / window) now cur).state.last_refill = now ∧
    ((luaTokenBucket cap (cap / window) now cur).allowed = true ↔
      1 ≤ (refill cap (cap / window) now cur).tokens) ∧
    ((luaTokenBucket cap (cap / window) now cur).allowed = true →
      (luaTokenBucket cap (cap / window) now cur).state.tokens =
        (refill cap (cap / window) now cur).tokens - 1) ∧
    ((luaTokenBucket cap (cap / window) now cur).allowed = false →
      (luaTokenBucket cap (cap / window) now cur).state.tokens =
        (refill cap (cap / window) now cur).tokens) ∧
    (luaTokenBucket cap (cap / window) now cur).remaining =
      ⌊(luaTokenBucket cap (cap / window) now cur).state.tokens⌋ := by
  have hinit : cur = none → refill cap (cap / window) now cur = ⟨cap, now⟩ := by
    intro h
    subst h
    rfl
  have hupd : ∀ b, cur = some b → refill cap (cap / window) now cur =
      ⟨min cap (b.tokens + (now - b.last_refill) * (cap / window)), now⟩ := by
    intro b h
    subst h
    rfl
  have hrl : (refill cap (cap / window) now cur).last_refill = now := by
    cases cur <;> rfl
  by_cases h1 : 1 ≤ (refill cap (cap / window) now cur).tokens
  · have hlua : luaTokenBucket cap (cap / window) now cur =
        ⟨⟨(refill cap (cap / window) now cur).tokens - 1,
          (refill cap (cap / window) now cur).last_refill⟩, 86400, true,
          ⌊(refill cap (cap / window) now cur).tokens - 1⌋⟩ := by
      simp only [luaTokenBucket, if_pos h1]
    rw [hlua]
    exact ⟨hinit, hupd, rfl, hrl, ⟨fun _ => h1, fun _ => rfl⟩, fun _ => rfl,
      fun h => absurd h (by simp), rfl⟩
  · have hlua : luaTokenBucket cap (cap / window) now cur =
        ⟨refill cap (cap / window) now cur, 86400, false, 0⟩ := by
      simp only [luaTokenBucket, if_neg h1]
    rw [hlua]
    exact ⟨hinit, hupd, rfl, hrl,
      ⟨fun h => absurd h (by simp), fun h => absurd h h1⟩,
      fun h => absurd h (by simp), fun _ => rfl,
      (Int.floor_eq_zero_iff.mpr (Set.mem_Ico.mpr ⟨hnn, lt_of_not_ge h1⟩)).symm⟩

/-- C1 witness: a fresh bucket with capacity 10, window 60 at `now = 5`. -/
theorem c1_allow_step_witness :
    (0 ≤ (refill 10 (10 / 60) 5 none).tokens) ∧
    ((none = (none : Option BucketState) → refill 10 (10 / 60) 5 none = ⟨10, 5⟩) ∧
    (∀ b, (none : Option BucketState) = some b → refill 10 (10 / 60) 5 none =
        ⟨min 10 (b.tokens + (5 - b.last_refill) * (10 / 60)), 5⟩) ∧
    (luaTokenBucket 10 (10 / 60) 5 none).expiry = 86400 ∧
    (luaTokenBucket 10 (10 / 60) 5 none).state.last_refill = 5 ∧
    ((luaTokenBucket 10 (10 / 60) 5 none).allowed = true ↔
      1 ≤ (refill 10 (10 / 60) 5 none).tokens) ∧
    ((luaTokenBucket 10 (10 / 60) 5 none).allowed = true →
      (luaTokenBucket 10 (10 / 60) 5 none).state.tokens =
        (refill 10 (10 / 60) 5 none).tokens - 1) ∧
    ((luaTokenBucket 10 (10 / 60) 5 none).allowed = false →
      (luaTokenBucket 10 (10 / 60) 5 none).state.tokens =
        (refill 10 (10 / 60) 5 none).tokens) ∧
    (luaTokenBucket 10 (10 / 60) 5 none).remaining =
      ⌊(luaTokenBucket 10 (10 / 60) 5 none).state.tokens⌋) :=
  ⟨by norm_num [refill], c1_allow_step 10 60 5 none (by norm_num [refill])⟩

/-- C2: when the store call raises `RedisError` (store unreachable or the
atomic operation errored) — and likewise when it yields a malformed
result shape — `is_allowed` answers allowed with
`remaining = limit = max_requests`; the handler returns instead of
re-raising, so no exception reaches the caller. -/
theorem c2_fail_open (m w : ℤ) :
    isAllowedNumeric m w ScriptOutcome.redisFailure = ⟨true, m, m, w⟩ ∧
    isAllowedNumeric m w ScriptOutcome.nilResult = ⟨true, m, m, w⟩ :=
  ⟨rfl, rfl⟩

/-- C3, counterexample to the claim as stated: capacity 10, window 60,
operations at `now = 100` then `now = 0` (a second instance with a clock
100 s behind) leave `tokens = -23/3 < 0` in the store. -/
theorem c3_counterexample :
    runOps 10 (1 / 6) none [100, 0] = some ⟨-23 / 3, 0⟩ ∧
    ¬(0 ≤ (-23 / 3 : ℚ)) := by
  norm_num [runOps, luaTokenBucket, refill]

/-- C3 (amended): for every sequence of limiter operations on a bucket
whose capacity and refill rate are nonnegative and whose supplied `now`
timestamps are nondecreasing, the stored token count observed after any
completed operation (any prefix of the sequence) satisfies
`0 ≤ tokens ≤ capacity`; with timestamps that go backwards the token
count can leave the range. -/
theorem c3_bucket_token_bounds (cap rate : ℚ) (hcap : 0 ≤ cap) (hrate : 0 ≤ rate)
    (nows pre suf : List ℚ) (hsplit : nows = pre ++ suf)
    (hmono : nows.Chain' (· ≤ ·))
    (b : BucketState) (hb : runOps cap rate none pre = some b) :
    0 ≤ b.tokens ∧ b.tokens ≤ cap := by
  subst hsplit
  have hpre : pre.Chain' (· ≤ ·) := (List.chain'_append.mp hmono).1
  exact runOps_bounds cap rate hcap hrate pre none hpre
    (fun b' h => Option.noConfusion h) b hb

/-- C3 witness: capacity 10, rate 1/6, operations at times 0 then 30;
after the first operation the stored state is `{tokens = 9, last_refill = 0}`,
within bounds. -/
theorem c3_bucket_token_bounds_witness :
    (0 : ℚ) ≤ 10 ∧ (0 : ℚ) ≤ 1 / 6 ∧
    ([100, 130] : List ℚ) = [100] ++ [130] ∧
    ([100, 130] : List ℚ).Chain' (· ≤ ·) ∧
    runOps 10 (1 / 6) none [100] = some ⟨9, 100⟩ ∧
    (0 ≤ (⟨9, 100⟩ : BucketState).tokens ∧ (⟨9, 100⟩ : BucketState).tokens ≤ 10) :=
  ⟨by norm_num, by norm_num, rfl,
    by norm_num [List.chain'_cons, List.chain'_singleton],
    by norm_num [runOps, luaTokenBucket, refill],
    c3_bucket_token_bounds 10 (1 / 6) (by norm_num) (by norm_num)
      [100, 130] [100] [130] rfl
      (by norm_num [List.chain'_cons, List.chain'_singleton])
      ⟨9, 100⟩ (by norm_num [runOps, luaTokenBucket, refill])⟩

/-- C4: the release path of `CacheLock` never deletes the lock key at all —
for any store contents the release leaves the store unchanged, and in
particular a lock still owned by the releaser (store holds exactly the
releaser's own token) is not deleted.  The `GET` result is a decoded `str`
while the comparison value is `bytes`, and in Python `str == bytes` is
always `False`, so the conditional delete never fires and locks only ever
disappear via TTL expiry. -/
theorem c4_release_never_deletes :
    (∀ (store : List (String × String)) (key tok : String),
        lockRelease store key tok = store) ∧
    lockRelease [("lock:projects:list", "1718000000.25")] "lock:projects:list"
        "1718000000.25" = [("lock:projects:list", "1718000000.25")] := by
  constructor
  · intro store key tok
    cases h : lookupKV store key <;> simp [lockRelease, h, pyEq]
  · decide

/-- C5: invalidating the wildcard pattern `costs:*` on a connected cache
holding `costs:daily` in both tiers removes it from the shared-store tier
but leaves it in the request-local map, because the request-local filter
tests for the literal substring `costs:*` inside the key; unrelated keys
are untouched in both tiers. -/
theorem c5_wildcard_misses_request_tier :
    invalidate ⟨true, [("costs:daily", "v1"), ("projects:list", "v2")],
        [("costs:daily", "v1"), ("projects:list", "v2")]⟩ "costs:*" =
      ⟨true, [("costs:daily", "v1"), ("projects:list", "v2")],
        [("projects:list", "v2")]⟩ := by decide

/-- C6, counterexample to the claim as stated: a base policy with capacity
4 under critical health scales to `int(4 * 0.2) = 0 < 1`; the code has no
lower clamp. -/
theorem c6_counterexample :
    (adjustForHealth ⟨4, 60⟩ HealthStatus.critical).requests < 1 := by
  norm_num [adjustForHealth, pyInt]

/-- C6 (amended): for every base policy and health state, the
health-adaptive scaling multiplies capacity by 0.2 under critical, 0.5
under degraded and 1.0 under healthy, rounding down to an integer, with
the window unchanged; the scaled capacity is at least 1 whenever the base
capacity is at least 5 — in particular for every limit `get_dynamic_limit`
derives from the configured tier and endpoint tables, whose capacities are
all at least 10. -/
theorem c6_health_scaling (base : Limit) (h : HealthStatus)
    (hbase : 5 ≤ base.requests) :
    (adjustForHealth base h).window = base.window ∧
    (adjustForHealth base HealthStatus.critical).requests = base.requests / 5 ∧
    (adjustForHealth base HealthStatus.degraded).requests = base.requests / 2 ∧
    (adjustForHealth base HealthStatus.healthy).requests = base.requests ∧
    1 ≤ (adjustForHealth base h).requests ∧
    ∀ (tier : ClientTier) (method path : String) (hs : HealthStatus),
      1 ≤ (getDynamicLimit tier method path hs).requests := by
  have hb0 : (0 : ℤ) ≤ base.requests := by linarith
  refine ⟨?_, adjustForHealth_critical base hb0, adjustForHealth_degraded base hb0,
    rfl, one_le_adjustForHealth base h hbase, ?_⟩
  · cases h <;> rfl
  · intro tier method path hs
    exact one_le_adjustForHealth _ hs (five_le_base_limit tier method path)

/-- C6 witness: the configured endpoint limit of capacity 10 under critical
health. -/
theorem c6_health_scaling_witness :
    5 ≤ (Limit.mk 10 60).requests ∧
    ((adjustForHealth ⟨10, 60⟩ HealthStatus.critical).window = (Limit.mk 10 60).window ∧
    (adjustForHealth ⟨10, 60⟩ HealthStatus.critical).requests = (Limit.mk 10 60).requests / 5 ∧
    (adjustForHealth ⟨10, 60⟩ HealthStatus.degraded).requests = (Limit.mk 10 60).requests / 2 ∧
    (adjustForHealth ⟨10, 60⟩ HealthStatus.healthy).requests = (Limit.mk 10 60).requests ∧
    1 ≤ (adjustForHealth ⟨10, 60⟩ HealthStatus.critical).requests ∧
    ∀ (tier : ClientTier) (method path : String) (hs : HealthStatus),
      1 ≤ (getDynamicLimit tier method path hs).requests) :=
  ⟨by norm_num, c6_health_scaling ⟨10, 60⟩ HealthStatus.critical (by norm_num)⟩

/-- C7, counterexample to the claim as stated: with capacity 10 and refill
rate 1 token/s, draining all 10 tokens at time 0 and checking again at
time 5 does not report remaining 5 — the check itself consumes one of the
five refilled tokens. -/
theorem c7_counterexample :
    (luaTokenBucket 10 1 5 (runOps 10 1 none (List.replicate 10 0))).remaining ≠ 5 := by
  norm_num [runOps, luaTokenBucket, refill, List.replicate]

/-- C7 (amended): with capacity 10 and refill rate 1 token/s, a bucket
drained of all 10 tokens at time 0 and checked again at time 5 allows the
request and reports remaining 4 — the five refilled tokens minus the one
the allowed check consumes. -/
theorem c7_drain_then_wait :
    (luaTokenBucket 10 1 5 (runOps 10 1 none (List.replicate 10 0))).allowed = true ∧
    (luaTokenBucket 10 1 5 (runOps 10 1 none (List.replicate 10 0))).remaining = 4 := by
  norm_num [runOps, luaTokenBucket, refill, List.replicate]

/-- C8: on a cache miss whose lock acquisition fails in all of its ten
backed-off attempts, `get` swallows the `TimeoutError`: it performs the
bounded fallback reads and — when the reads are well-formed — either
returns the value another holder populated or invokes the compute function
unprotected and returns its result; both the acquisition attempts and the
fallback reads are capped at ten (extra attempt or read outcomes beyond
the tenth cannot change the result). -/
theorem c8_lock_timeout_degrades (rc : List (String × String)) (key : String)
    (o : GetOracle)
    (hmiss : lookupKV rc key = none)
    (hl2 : truthy o.read1 = none)
    (hlock : lockAcquire o.lockAttempts = false)
    (hdec : ∀ s, retryRead o.timeoutReads = some s → (jsonDecode s).isSome = true) :
    ((∃ raw v, retryRead o.timeoutReads = some raw ∧ jsonDecode raw = some v ∧
        cacheGet rc true key o = GetResult.ok v) ∨
      (retryRead o.timeoutReads = none ∧
        cacheGet rc true key o = GetResult.ok o.computeVal)) ∧
    lockAcquire o.lockAttempts = lockAcquire (o.lockAttempts.take 10) ∧
    retryRead o.timeoutReads = retryRead (o.timeoutReads.take 10) := by
  refine ⟨?_, ?_, ?_⟩
  · have hget : cacheGet rc true key o = cacheGetMiss o := by
      simp [cacheGet, hmiss, hl2]
    rw [hget]
    cases hr : retryRead o.timeoutReads with
    | none =>
      right
      exact ⟨rfl, by simp [cacheGetMiss, hlock, hr]⟩
    | some raw =>
      left
      obtain ⟨v, hv⟩ := Option.isSome_iff_exists.mp (hdec raw hr)
      exact ⟨raw, v, rfl, hv, by simp [cacheGetMiss, hlock, hr, hv]⟩
  · simp [lockAcquire, List.take_take]
  · simp [retryRead, List.take_take]

/-- C8 witness: empty request cache, all ten acquisition attempts fail,
all ten fallback reads miss, and the unprotected compute returns
`db-value`. -/
theorem c8_lock_timeout_degrades_witness :
    lookupKV [] "projects:list:all" = none ∧
    truthy c8OracleW.read1 = none ∧
    lockAcquire c8OracleW.lockAttempts = false ∧
    (∀ s, retryRead c8OracleW.timeoutReads = some s → (jsonDecode s).isSome = true) ∧
    (((∃ raw v, retryRead c8OracleW.timeoutReads = some raw ∧
        jsonDecode raw = some v ∧
        cacheGet [] true "projects:list:all" c8OracleW = GetResult.ok v) ∨
      (retryRead c8OracleW.timeoutReads = none ∧
        cacheGet [] true "projects:list:all" c8OracleW =
          GetResult.ok c8OracleW.computeVal)) ∧
      lockAcquire c8OracleW.lockAttempts = lockAcquire (c8OracleW.lockAttempts.take 10) ∧
      retryRead c8OracleW.timeoutReads = retryRead (c8OracleW.timeoutReads.take 10)) := by
  have hnoread : ∀ s, retryRead c8OracleW.timeoutReads = some s →
      (jsonDecode s).isSome = true := by
    intro s hs
    rw [(by decide : retryRead c8OracleW.timeoutReads = none)] at hs
    exact Option.noConfusion hs
  exact ⟨by decide, by decide, by decide, hnoread,
    c8_lock_timeout_degrades [] "projects:list:all" c8OracleW
      (by decide) (by decide) (by decide) hnoread⟩

/-- C9: on the re-check read performed after acquiring the lock, a stored
value that cannot be decoded is not treated as absent — the bare
`json.loads` has no handler there, so the decode failure escapes `get` as
a hard failure to the caller (modelled as `GetResult.raised`): the cache
miss on key `projects:list:1` proceeds to the lock, the re-check sees the
malformed value `not-json`, and the call raises instead of recomputing. -/
theorem c9_recheck_decode_error_raises :
    cacheGet [] true "projects:list:1"
      ⟨none, [true], some "not-json", [], "fresh"⟩ = GetResult.raised := by
  decide

/-- C10: when the shared-store client is not connected, `invalidate`
returns immediately and modifies neither tier — in particular matching
entries in the request-local map are left in place. -/
theorem c10_invalidate_disconnected_noop (st : CacheState) (pat : String)
    (h : st.redisConnected = false) :
    invalidate st pat = st := by
  simp [invalidate, h]

/-- C10 witness: a disconnected cache holding `costs:daily` locally keeps
it through `invalidate "costs:*"`. -/
theorem c10_invalidate_disconnected_noop_witness :
    (CacheState.mk false [("costs:daily", "v1")] []).redisConnected = false ∧
    invalidate (CacheState.mk false [("costs:daily", "v1")] []) "costs:*" =
      CacheState.mk false [("costs:daily", "v1")] [] :=
  ⟨rfl, c10_invalidate_disconnected_noop (CacheState.mk false [("costs:daily", "v1")] [])
    "costs:*" rfl⟩
